import Mathlib

/-!
Shallow embedding of `src/public/js/view.js` (the `PongerView` class of the
Ponger game).  The game model (`PongerModel`) lives outside the shown sources;
the view only reads its fields and invokes its methods, so the model is
embedded as a read-only record (`PongerModelView`) and every method invocation
the view performs is recorded as an explicit `ModelCall` effect.  All JS
numbers are embedded as rationals (ideal real arithmetic of the source
expressions); DOM side effects (canvas drawing, sound, the URL fragment,
menu visibility) are recorded as `Effect`s.
-/

namespace Ponger

/-- The states of the model's session state machine, as named by the
`model.states` enum that the view compares against. -/
inductive ModelState where
  | OFFLINE
  | CONNECTING
  | CONNECTION_FAILED
  | WAITING_OPPONENT_TO_CONNECT
  | WAITING_OPPONENT_TO_START
  | WAITING_PLAYER
  | OPPONENT_DISCONNECTED
  deriving DecidableEq, Repr

/-- The ball as read by the view: position and radius in abstract units. -/
structure Ball where
  x : ℚ
  y : ℚ
  r : ℚ
  deriving DecidableEq, Repr

/-- A bat as read by the view: centre position and size in abstract units. -/
structure Bat where
  x : ℚ
  y : ℚ
  w : ℚ
  h : ℚ
  deriving DecidableEq, Repr

/-- The model as visible to the view: the fields the view dereferences.
`points` is `none` when `model.points` is not yet set (the view code guards
`this.model.points ? ... : 0`). -/
structure PongerModelView where
  state : ModelState
  ball : Ball
  leftBat : Bat
  rightBat : Bat
  points : Option (Nat × Nat)
  abstractWidth : ℚ
  abstractHeight : ℚ
  roomId : String
  deriving DecidableEq, Repr

/-- A method invocation the view performs on the model. -/
inductive ModelCall where
  | init (mode : Option String) (hash : Option String)
  | keyDown (code : Nat)
  | keyUp (code : Nat)
  | playerStarted
  | updateBall (dt : ℚ)
  | updateBats (dt : ℚ)
  | detectCollision (bat : Bat)
  | detectPoint
  deriving DecidableEq, Repr

/-- A canvas-context drawing primitive, with all numeric arguments recorded. -/
inductive DrawCmd where
  | clearRect (x y w h : ℚ)
  | dashedLine (x1 y1 x2 y2 lineWidth dashOn dashOff : ℚ)
  | fillTextNat (n : Nat) (x y : ℚ)
  | fillRect (x y w h : ℚ)
  | arc (x y r : ℚ)
  | fillTextStr (s : String) (x y maxWidth : ℚ)
  deriving DecidableEq, Repr

/-- An observable side effect of the view. -/
inductive Effect where
  | call (c : ModelCall)
  | draw (d : DrawCmd)
  | playSound
  | setHash (s : String)
  | hideMenu
  | showMenu
  deriving DecidableEq, Repr

/-- The notifications the view subscribes to in `handleModelEvents`. -/
inductive Notification where
  | open_room
  | playing_online
  | disconnected
  | collision
  deriving DecidableEq, Repr

/-- The view's own mutable fields: `this.started`, `this.playing`, and
whether the `blur` listener was registered (it is added by `start` only when
`model.state === model.states.OFFLINE`). -/
structure ViewState where
  started : Bool
  playing : Bool
  blurHook : Bool
  deriving DecidableEq, Repr

/-- The canvas element's size, as set by `resizeCanvas`. -/
structure Canvas where
  width : ℚ
  height : ℚ
  deriving DecidableEq, Repr

/-- `resizeCanvas`: fit the canvas inside the window, keeping the abstract
field's aspect ratio, leaving a 10px margin on the constraining dimension. -/
def resizeCanvas (m : PongerModelView) (innerWidth innerHeight : ℚ) : Canvas :=
  let fieldRatio := m.abstractWidth / m.abstractHeight
  if innerWidth < innerHeight * fieldRatio then
    { width := innerWidth - 10, height := (innerWidth - 10) / fieldRatio }
  else
    { width := (innerHeight - 10) * fieldRatio, height := innerHeight - 10 }

/-- `getInfoText`: status text for the paused overlay. -/
def getInfoText (m : PongerModelView) (v : ViewState) : String :=
  match m.state with
  | .CONNECTING => "Connecting..."
  | .CONNECTION_FAILED => "Connection failed."
  | .WAITING_OPPONENT_TO_CONNECT => "Share the URL with your opponent to connect!"
  | .WAITING_OPPONENT_TO_START => "Waiting opponent to start."
  | .OPPONENT_DISCONNECTED => "Opponent disconnected."
  | _ => "Press \"SPACE\" to " ++ (if v.started then "continue" else "start") ++ "!"

/-- `drawLines`: the dashed half-way line. -/
def drawLines (c : Canvas) : List DrawCmd :=
  [ .dashedLine (c.width / 2) 0 (c.width / 2) c.height
      (c.width * (15 / 1000)) (c.width * (4 / 100)) (c.width * (47 / 1000)) ]

/-- `drawPoints`: the two score numbers. -/
def drawPoints (m : PongerModelView) (c : Canvas) : List DrawCmd :=
  [ .fillTextNat (match m.points with | some p => p.1 | none => 0)
      (c.width / 2 - c.width * (2 / 100)) (c.width * (2 / 100)),
    .fillTextNat (match m.points with | some p => p.2 | none => 0)
      (c.width / 2 + c.width * (2 / 100)) (c.width * (2 / 100)) ]

/-- `drawBall`: the ball, mapped from abstract to canvas coordinates. -/
def drawBall (m : PongerModelView) (c : Canvas) : List DrawCmd :=
  [ .arc (m.ball.x / m.abstractWidth * c.width)
      (m.ball.y / m.abstractHeight * c.height)
      (c.width * m.ball.r / m.abstractWidth) ]

/-- `drawBat`: a bat rectangle, mapped from abstract to canvas coordinates. -/
def drawBat (m : PongerModelView) (c : Canvas) (bat : Bat) : List DrawCmd :=
  [ .fillRect ((bat.x - bat.w / 2) / m.abstractWidth * c.width)
      ((bat.y - bat.h / 2) / m.abstractHeight * c.height)
      (bat.w / m.abstractWidth * c.width)
      (bat.h / m.abstractHeight * c.height) ]

/-- `drawPausedInfo`: the translucent box and the status text. -/
def drawPausedInfo (m : PongerModelView) (c : Canvas) (v : ViewState) : List DrawCmd :=
  [ .fillRect (c.width / 2 - c.width * (35 / 100)) (c.height / 2 - c.height * (1 / 10))
      (c.width * (7 / 10)) (c.height * (2 / 10)),
    .fillTextStr (getInfoText m v) (c.width / 2) (c.height / 2) (c.width * (65 / 100)) ]

/-- The model-update calls made by one pass of `loop` (lines 136-146):
`updateBall` when playing, plus the offline collision/point pipeline when the
model is in the `OFFLINE` state. -/
def loopModelCalls (m : PongerModelView) (v : ViewState) (dt : ℚ) : List ModelCall :=
  if v.playing then
    .updateBall dt ::
      (if m.state = ModelState.OFFLINE then
        [.updateBats dt, .detectCollision m.leftBat, .detectCollision m.rightBat,
         .detectPoint]
      else [])
  else []

/-- The drawing pass of one `loop` iteration (lines 148-157). -/
def loopDraws (m : PongerModelView) (c : Canvas) (v : ViewState) : List DrawCmd :=
  .clearRect 0 0 c.width c.height ::
    (drawLines c ++ drawPoints m c ++ drawBat m c m.leftBat ++ drawBat m c m.rightBat ++
      drawBall m c ++ (if v.playing then [] else drawPausedInfo m c v))

/-- One full `loop` iteration: model updates (gated on `playing` and the
model state) followed by the drawing pass.  The view's own fields are not
modified by `loop`. -/
def loopStep (m : PongerModelView) (c : Canvas) (v : ViewState) (dt : ℚ) : List Effect :=
  (loopModelCalls m v dt).map Effect.call ++ (loopDraws m c v).map Effect.draw

/-- The `keypress` listener (lines 71-86): space toggles play offline, or
signals readiness when the model waits for the local player. -/
def keypressHandler (m : PongerModelView) (v : ViewState) (code : Nat) :
    ViewState × List ModelCall :=
  if code = 32 then
    match m.state with
    | .OFFLINE => ({ v with started := true, playing := !v.playing }, [])
    | .WAITING_PLAYER => (v, [.playerStarted])
    | _ => (v, [])
  else (v, [])

/-- The `blur` listener: registered only for offline sessions; forces pause. -/
def blurHandler (v : ViewState) : ViewState :=
  if v.blurHook then { v with playing := false } else v

/-- The four notification listeners installed by `handleModelEvents`
(lines 100-116). -/
def notifHandler (m : PongerModelView) (v : ViewState) (n : Notification) :
    ViewState × List Effect :=
  match n with
  | .open_room => (v, [.setHash m.roomId])
  | .playing_online => ({ v with playing := true }, [])
  | .disconnected => ({ v with playing := false }, [])
  | .collision => (v, [.playSound])

/-- An external stimulus delivered to the view: an animation frame, a DOM
input event, a window event, or a model notification. -/
inductive ViewEvent where
  | frame (dt : ℚ)
  | keydown (code : Nat)
  | keyup (code : Nat)
  | keypress (code : Nat)
  | blur
  | notif (n : Notification)
  | resize (innerWidth innerHeight : ℚ)
  deriving DecidableEq, Repr

/-- One step of the view: dispatch a single event against the current model
snapshot, view state and canvas, producing the new view state, the new canvas
and the effects performed.  This is the view's entire event-driven behaviour
after initialisation. -/
def viewStep (m : PongerModelView) (vc : ViewState × Canvas) (e : ViewEvent) :
    (ViewState × Canvas) × List Effect :=
  match e with
  | .frame dt => (vc, loopStep m vc.2 vc.1 dt)
  | .keydown code => (vc, [.call (.keyDown code)])
  | .keyup code => (vc, [.call (.keyUp code)])
  | .keypress code =>
      let r := keypressHandler m vc.1 code
      ((r.1, vc.2), r.2.map Effect.call)
  | .blur => ((blurHandler vc.1, vc.2), [])
  | .notif n =>
      let r := notifHandler m vc.1 n
      ((r.1, vc.2), r.2)
  | .resize w h => ((vc.1, resizeCanvas m w h), [])

/-- Run the view over a sequence of events, each paired with the model
snapshot current at that moment (the model evolves externally between
events).  Returns the final view state/canvas and all effects in order. -/
def runView (vc : ViewState × Canvas) :
    List (PongerModelView × ViewEvent) → (ViewState × Canvas) × List Effect
  | [] => (vc, [])
  | (m, e) :: rest =>
      let r := viewStep m vc e
      let r2 := runView r.1 rest
      (r2.1, r.2 ++ r2.2)

/-- The whole system as the view sees it: the model record plus the view's
fields and the canvas.  Used to state that the view never writes the model. -/
structure SystemState where
  model : PongerModelView
  view : ViewState
  canvas : Canvas
  deriving DecidableEq, Repr

/-- One system step: the view handles an event; the model record is only
read (every model mutation is an emitted `ModelCall` effect, performed by
the model itself, outside the view). -/
def sysStep (s : SystemState) (e : ViewEvent) : SystemState × List Effect :=
  let r := viewStep s.model (s.view, s.canvas) e
  ({ model := s.model, view := r.1.1, canvas := r.1.2 }, r.2)

/-- Run the system over a sequence of events. -/
def sysRun (s : SystemState) : List ViewEvent → SystemState × List Effect
  | [] => (s, [])
  | e :: rest =>
      let r := sysStep s e
      let r2 := sysRun r.1 rest
      (r2.1, r.2 ++ r2.2)

/-- `init` (lines 16-53), reduced to its observable decisions: the initial
bare `model.init()`, then — depending on the URL fragment — either hide the
menu and start an online game with the fragment text after the `#`, or show
the menu and wait.  `menuPresent` models whether `document.getElementById`
found the menu element (the code guards every menu access on it). -/
def viewInit (locationHash : String) (menuPresent : Bool) : ViewState × List Effect :=
  let v : ViewState := { started := false, playing := false, blurHook := false }
  if locationHash ≠ "" && locationHash ≠ "#" then
    (v, [.call (.init none none)] ++ (if menuPresent then [.hideMenu] else []) ++
      [.call (.init (some "online") (some (locationHash.drop 1)))])
  else
    (v, [.call (.init none none)] ++ (if menuPresent then [.showMenu] else []))

/-- `start` (lines 60-97): re-initialise the model with the chosen mode and
room hash; afterwards the `blur` pause hook is active exactly when the model
came up offline.  `mPost` is the model snapshot after `model.init(mode, hash)`
returned (the view checks `this.model.state` at that point). -/
def startGame (mPost : PongerModelView) (mode : Option String) (hash : Option String)
    (v : ViewState) : ViewState × List Effect :=
  ({ v with blurHook := mPost.state = ModelState.OFFLINE },
    [.call (.init mode hash)])

/-- Extract the model method invocations from an effect list. -/
def modelCallsOf (effs : List Effect) : List ModelCall :=
  effs.filterMap fun e => match e with | .call c => some c | _ => none

theorem modelCallsOf_append (a b : List Effect) :
    modelCallsOf (a ++ b) = modelCallsOf a ++ modelCallsOf b := by
  simp [modelCallsOf, List.filterMap_append]

theorem modelCallsOf_calls (cs : List ModelCall) :
    modelCallsOf (cs.map Effect.call) = cs := by
  induction cs with
  | nil => rfl
  | cons c cs ih =>
      simp only [List.map_cons, modelCallsOf, List.filterMap_cons] at ih ⊢
      rw [ih]

theorem modelCallsOf_draws (ds : List DrawCmd) :
    modelCallsOf (ds.map Effect.draw) = [] := by
  induction ds with
  | nil => rfl
  | cons d ds ih =>
      simp only [List.map_cons, modelCallsOf, List.filterMap_cons] at ih ⊢
      exact ih

/-- C1: on a frame, while `playing` is true the view calls `updateBall dt`
exactly once, followed by `updateBats dt`, `detectCollision leftBat`,
`detectCollision rightBat`, `detectPoint`, in that order, if and only if the
model state is `OFFLINE`; while `playing` is false no model call is made. -/
theorem frame_model_calls (m : PongerModelView) (c : Canvas) (v : ViewState) (dt : ℚ) :
    modelCallsOf (viewStep m (v, c) (ViewEvent.frame dt)).2 =
      if v.playing then
        ModelCall.updateBall dt ::
          (if m.state = ModelState.OFFLINE then
            [ModelCall.updateBats dt, ModelCall.detectCollision m.leftBat,
             ModelCall.detectCollision m.rightBat, ModelCall.detectPoint]
          else [])
      else [] := by
  show modelCallsOf (loopStep m c v dt) = _
  rw [loopStep, modelCallsOf_append, modelCallsOf_calls, modelCallsOf_draws,
    List.append_nil, loopModelCalls]

/-- C2: at view initialisation an online (guest) session starts if and only
if the URL fragment is non-empty: the menu (when present) is hidden and the
model is initialised with mode `online` and the fragment text after the `#`;
with an empty fragment no online init happens and the menu is shown. -/
theorem init_online_iff_hash (hash : String) (menuPresent : Bool) :
    (Effect.call (ModelCall.init (some "online") (some (hash.drop 1)))
        ∈ (viewInit hash menuPresent).2 ↔ (hash ≠ "" ∧ hash ≠ "#")) ∧
    ((∀ mo ha, Effect.call (ModelCall.init (some mo) ha) ∈ (viewInit hash menuPresent).2 →
        mo = "online" ∧ ha = some (hash.drop 1) ∧ hash ≠ "" ∧ hash ≠ "#")) ∧
    (Effect.hideMenu ∈ (viewInit hash menuPresent).2 ↔
        (menuPresent = true ∧ hash ≠ "" ∧ hash ≠ "#")) ∧
    (Effect.showMenu ∈ (viewInit hash menuPresent).2 ↔
        (menuPresent = true ∧ ¬(hash ≠ "" ∧ hash ≠ "#"))) := by
  by_cases h : hash ≠ "" ∧ hash ≠ "#"
  · cases menuPresent <;> simp [viewInit, h]
  · cases menuPresent <;> simp [viewInit, h]

/-- C8: the `open_room` notification makes the view publish the room id by
setting the URL fragment to `model.roomId`; the view state is untouched. -/
theorem open_room_sets_hash (m : PongerModelView) (vc : ViewState × Canvas) :
    viewStep m vc (ViewEvent.notif Notification.open_room) =
      (vc, [Effect.setHash m.roomId]) := rfl

/-- C9: the view plays the sound exactly on a `collision` notification: no
other event (frame, input, other notification, resize, blur) produces a
sound effect. -/
theorem sound_iff_collision (m : PongerModelView) (vc : ViewState × Canvas)
    (e : ViewEvent) :
    Effect.playSound ∈ (viewStep m vc e).2 ↔
      e = ViewEvent.notif Notification.collision := by
  cases e with
  | frame dt =>
      simp [viewStep, loopStep, List.mem_append, List.mem_map]
  | keydown code => simp [viewStep]
  | keyup code => simp [viewStep]
  | keypress code =>
      simp [viewStep, List.mem_map]
  | blur => simp [viewStep]
  | notif n => cases n <;> simp [viewStep, notifHandler]
  | resize w h => simp [viewStep]

/-- A concrete offline model snapshot (field ratio 2:1), used as a witness
input. -/
def offlineModel : PongerModelView :=
  { state := ModelState.OFFLINE
    ball := { x := 100, y := 50, r := 2 }
    leftBat := { x := 5, y := 50, w := 2, h := 14 }
    rightBat := { x := 195, y := 50, w := 2, h := 14 }
    points := some (0, 0)
    abstractWidth := 200
    abstractHeight := 100
    roomId := "" }

/-- A concrete model snapshot waiting for the local player, used as a
witness input. -/
def waitingModel : PongerModelView :=
  { offlineModel with state := ModelState.WAITING_PLAYER, roomId := "room1" }

/-- A concrete canvas, used as a witness input. -/
def sampleCanvas : Canvas := { width := 380, height := 190 }

/-- A concrete view state with the offline blur hook registered, used as a
witness input. -/
def sampleView : ViewState := { started := false, playing := false, blurHook := true }

/-- C4: while the model is `OFFLINE`, a space keypress sets `started` and
toggles `playing` (two presses restore its value), and a window blur during
an offline session (blur hook registered) forces `playing := false` and
changes nothing else. -/
theorem offline_space_and_blur (m : PongerModelView) (vc : ViewState × Canvas)
    (hm : m.state = ModelState.OFFLINE) :
    (viewStep m vc (ViewEvent.keypress 32)).1.1 =
      { vc.1 with started := true, playing := !vc.1.playing } ∧
    ((viewStep m ((viewStep m vc (ViewEvent.keypress 32)).1)
        (ViewEvent.keypress 32)).1.1.playing = vc.1.playing) ∧
    (vc.1.blurHook = true →
      (viewStep m vc ViewEvent.blur).1.1 = { vc.1 with playing := false } ∧
      (viewStep m vc ViewEvent.blur).1.2 = vc.2 ∧
      (viewStep m vc ViewEvent.blur).2 = []) := by
  refine ⟨?_, ?_, fun hb => ?_⟩
  · simp [viewStep, keypressHandler, hm]
  · simp [viewStep, keypressHandler, hm]
  · simp [viewStep, blurHandler, hb]

/-- Witness for C4 at a concrete offline model and view state. -/
theorem offline_space_and_blur_witness :
    offlineModel.state = ModelState.OFFLINE ∧
    ((viewStep offlineModel (sampleView, sampleCanvas) (ViewEvent.keypress 32)).1.1 =
        { sampleView with started := true, playing := !sampleView.playing } ∧
     ((viewStep offlineModel
          ((viewStep offlineModel (sampleView, sampleCanvas) (ViewEvent.keypress 32)).1)
          (ViewEvent.keypress 32)).1.1.playing = sampleView.playing) ∧
     (sampleView.blurHook = true →
       (viewStep offlineModel (sampleView, sampleCanvas) ViewEvent.blur).1.1 =
          { sampleView with playing := false } ∧
       (viewStep offlineModel (sampleView, sampleCanvas) ViewEvent.blur).1.2 = sampleCanvas ∧
       (viewStep offlineModel (sampleView, sampleCanvas) ViewEvent.blur).2 = [])) :=
  ⟨rfl, offline_space_and_blur offlineModel (sampleView, sampleCanvas) rfl⟩

/-- C5: while the model is `WAITING_PLAYER`, a space keypress calls
`model.playerStarted()` and leaves the view state untouched; in any state
other than `OFFLINE` and `WAITING_PLAYER` a space keypress changes nothing
and calls nothing. -/
theorem space_signals_player_started (m : PongerModelView) (vc : ViewState × Canvas) :
    (m.state = ModelState.WAITING_PLAYER →
      viewStep m vc (ViewEvent.keypress 32) =
        (vc, [Effect.call ModelCall.playerStarted])) ∧
    (m.state ≠ ModelState.OFFLINE → m.state ≠ ModelState.WAITING_PLAYER →
      viewStep m vc (ViewEvent.keypress 32) = (vc, [])) := by
  constructor
  · intro h
    simp [viewStep, keypressHandler, h]
  · intro h1 h2
    cases hs : m.state <;> simp_all [viewStep, keypressHandler]

/-- Witness for C5 at a concrete `WAITING_PLAYER` model. -/
theorem space_signals_player_started_witness :
    waitingModel.state = ModelState.WAITING_PLAYER ∧
    viewStep waitingModel (sampleView, sampleCanvas) (ViewEvent.keypress 32) =
      ((sampleView, sampleCanvas), [Effect.call ModelCall.playerStarted]) :=
  ⟨rfl, (space_signals_player_started waitingModel (sampleView, sampleCanvas)).1 rfl⟩

/-- C6: over any sequence of frames, input events and notifications, the
view never assigns to a property of the model object: the model record of
the system state is unchanged by the view's run (all model mutation is
carried by the emitted `ModelCall` effects, executed by the model itself). -/
theorem view_never_writes_model (s : SystemState) (evs : List ViewEvent) :
    (sysRun s evs).1.model = s.model := by
  induction evs generalizing s with
  | nil => rfl
  | cons e rest ih =>
      calc (sysRun s (e :: rest)).1.model
          = (sysRun (sysStep s e).1 rest).1.model := rfl
        _ = (sysStep s e).1.model := ih _
        _ = s.model := rfl

/-- C10 counterexample: with field ratio 2 and a 195x100 window (both
dimensions larger than 10), `resizeCanvas` keeps the aspect ratio but sets
`canvas.height = 92.5 > innerHeight - 10 = 90`: the claimed 10-pixel bound
fails on the non-constraining dimension. -/
theorem resizeCanvas_margin_fails :
    (10:ℚ) < 195 ∧ (10:ℚ) < 100 ∧
    ¬ ((resizeCanvas offlineModel 195 100).height ≤ 100 - 10) := by
  refine ⟨by norm_num, by norm_num, ?_⟩
  norm_num [resizeCanvas, offlineModel]

/-- C10 amended: after `resizeCanvas`, the canvas preserves the abstract
aspect ratio exactly, and — whenever the window exceeds 10 pixels in each
dimension — both canvas dimensions are strictly smaller than the window,
with the constraining dimension exactly equal to its window size minus 10;
the 10-pixel margin is guaranteed only on the constraining dimension. -/
theorem resizeCanvas_fits (m : PongerModelView) (w h : ℚ)
    (hW : 0 < m.abstractWidth) (hH : 0 < m.abstractHeight)
    (hw : 10 < w) (hh : 10 < h) :
    (resizeCanvas m w h).width / (resizeCanvas m w h).height =
      m.abstractWidth / m.abstractHeight ∧
    (resizeCanvas m w h).width < w ∧
    (resizeCanvas m w h).height < h ∧
    (w < h * (m.abstractWidth / m.abstractHeight) →
      (resizeCanvas m w h).width = w - 10) ∧
    (¬ w < h * (m.abstractWidth / m.abstractHeight) →
      (resizeCanvas m w h).height = h - 10) := by
  have hr : 0 < m.abstractWidth / m.abstractHeight := div_pos hW hH
  by_cases hc : w < h * (m.abstractWidth / m.abstractHeight)
  · have hcanvas : resizeCanvas m w h =
        { width := w - 10, height := (w - 10) / (m.abstractWidth / m.abstractHeight) } := by
      simp only [resizeCanvas, if_pos hc]
    rw [hcanvas]
    have hw10 : (0:ℚ) < w - 10 := by linarith
    refine ⟨?_, by linarith, ?_, fun _ => rfl, fun hcon => absurd hc hcon⟩
    · rw [div_div_eq_mul_div, mul_comm, mul_div_assoc, div_self (ne_of_gt hw10), mul_one]
    · rw [div_lt_iff₀ hr]
      linarith
  · have hcanvas : resizeCanvas m w h =
        { width := (h - 10) * (m.abstractWidth / m.abstractHeight), height := h - 10 } := by
      simp only [resizeCanvas, if_neg hc]
    rw [hcanvas]
    have hh10 : (0:ℚ) < h - 10 := by linarith
    have hhr : h * (m.abstractWidth / m.abstractHeight) ≤ w := not_lt.mp hc
    have hex : (h - 10) * (m.abstractWidth / m.abstractHeight) =
        h * (m.abstractWidth / m.abstractHeight) -
          10 * (m.abstractWidth / m.abstractHeight) := by ring
    have hpos : 0 < 10 * (m.abstractWidth / m.abstractHeight) := by
      have := mul_pos (show (0:ℚ) < 10 by norm_num) hr
      exact this
    refine ⟨?_, by linarith, by linarith, fun hcon => absurd hcon hc, fun _ => rfl⟩
    rw [mul_comm, mul_div_assoc, div_self (ne_of_gt hh10), mul_one]

/-- Witness for C10 (amended) at the concrete model with field ratio 2 and a
195x100 window. -/
theorem resizeCanvas_fits_witness :
    (0 < offlineModel.abstractWidth ∧ 0 < offlineModel.abstractHeight ∧
      (10:ℚ) < 195 ∧ (10:ℚ) < 100) ∧
    ((resizeCanvas offlineModel 195 100).width / (resizeCanvas offlineModel 195 100).height =
        offlineModel.abstractWidth / offlineModel.abstractHeight ∧
     (resizeCanvas offlineModel 195 100).width < 195 ∧
     (resizeCanvas offlineModel 195 100).height < 100 ∧
     ((195:ℚ) < 100 * (offlineModel.abstractWidth / offlineModel.abstractHeight) →
       (resizeCanvas offlineModel 195 100).width = 195 - 10) ∧
     (¬ (195:ℚ) < 100 * (offlineModel.abstractWidth / offlineModel.abstractHeight) →
       (resizeCanvas offlineModel 195 100).height = 100 - 10)) :=
  ⟨⟨by norm_num [offlineModel], by norm_num [offlineModel], by norm_num, by norm_num⟩,
    resizeCanvas_fits offlineModel 195 100 (by norm_num [offlineModel])
      (by norm_num [offlineModel]) (by norm_num) (by norm_num)⟩

/-- While `playing` is false, a single event that is neither a
`playing_online` notification nor a space keypress seen in the `OFFLINE`
model state keeps `playing` false and produces no `updateBall`/`updateBats`
call. -/
theorem viewStep_keeps_paused (m : PongerModelView) (vc : ViewState × Canvas)
    (e : ViewEvent) (hp : vc.1.playing = false)
    (hne : e ≠ ViewEvent.notif Notification.playing_online)
    (hst : m.state ≠ ModelState.OFFLINE) :
    (viewStep m vc e).1.1.playing = false ∧
    ∀ dt, ModelCall.updateBall dt ∉ modelCallsOf (viewStep m vc e).2 ∧
          ModelCall.updateBats dt ∉ modelCallsOf (viewStep m vc e).2 := by
  cases e with
  | frame dt =>
      refine ⟨hp, fun dt' => ?_⟩
      rw [show (viewStep m vc (ViewEvent.frame dt)).2 = loopStep m vc.2 vc.1 dt from rfl,
        loopStep, modelCallsOf_append, modelCallsOf_calls, modelCallsOf_draws,
        List.append_nil, loopModelCalls, hp]
      simp
  | keydown code =>
      refine ⟨hp, fun dt => ?_⟩
      simp [viewStep, modelCallsOf]
  | keyup code =>
      refine ⟨hp, fun dt => ?_⟩
      simp [viewStep, modelCallsOf]
  | keypress code =>
      by_cases hcode : code = 32
      · subst hcode
        cases hs : m.state <;>
          simp_all [viewStep, keypressHandler, modelCallsOf]
      · simp_all [viewStep, keypressHandler, modelCallsOf]
  | blur =>
      refine ⟨?_, fun dt => ?_⟩
      · by_cases hb : vc.1.blurHook = true <;> simp [viewStep, blurHandler, hb, hp]
      · simp [viewStep, modelCallsOf]
  | notif n =>
      cases n with
      | open_room => exact ⟨hp, fun dt => by simp [viewStep, notifHandler, modelCallsOf]⟩
      | playing_online => exact absurd rfl hne
      | disconnected => exact ⟨rfl, fun dt => by simp [viewStep, notifHandler, modelCallsOf]⟩
      | collision => exact ⟨hp, fun dt => by simp [viewStep, notifHandler, modelCallsOf]⟩
  | resize w h =>
      exact ⟨hp, fun dt => by simp [viewStep, modelCallsOf]⟩

/-- While `playing` is false, a run containing no `playing_online`
notification, in which the model is never seen `OFFLINE`, keeps `playing`
false and never calls `updateBall`/`updateBats`. -/
theorem runView_keeps_paused (vc : ViewState × Canvas)
    (evs : List (PongerModelView × ViewEvent))
    (hp : vc.1.playing = false)
    (hne : ∀ p ∈ evs, p.2 ≠ ViewEvent.notif Notification.playing_online)
    (hst : ∀ p ∈ evs, p.1.state ≠ ModelState.OFFLINE) :
    (runView vc evs).1.1.playing = false ∧
    ∀ dt, ModelCall.updateBall dt ∉ modelCallsOf (runView vc evs).2 ∧
          ModelCall.updateBats dt ∉ modelCallsOf (runView vc evs).2 := by
  induction evs generalizing vc with
  | nil => exact ⟨hp, fun dt => by simp [runView, modelCallsOf]⟩
  | cons p rest ih =>
      obtain ⟨m, e⟩ := p
      have hstep := viewStep_keeps_paused m vc e hp
        (hne _ (List.mem_cons_self _ _)) (hst _ (List.mem_cons_self _ _))
      have hrest := ih (viewStep m vc e).1 hstep.1
        (fun q hq => hne q (List.mem_cons_of_mem _ hq))
        (fun q hq => hst q (List.mem_cons_of_mem _ hq))
      refine ⟨hrest.1, fun dt => ?_⟩
      have hsplit : (runView vc ((m, e) :: rest)).2 =
          (viewStep m vc e).2 ++ (runView (viewStep m vc e).1 rest).2 := rfl
      rw [hsplit, modelCallsOf_append]
      have h1 := hstep.2 dt
      have h2 := hrest.2 dt
      constructor <;> · rw [List.mem_append]; tauto

/-- C3: a `disconnected` notification forces `playing := false`; afterwards,
as long as no `playing_online` notification arrives (and the online session
never shows the model as `OFFLINE`, which only a fresh restart could do),
every subsequent frame makes no `updateBall`/`updateBats` call; a
`playing_online` notification sets `playing := true` again. -/
theorem disconnected_stops_simulation (m0 : PongerModelView) (vc : ViewState × Canvas)
    (evs : List (PongerModelView × ViewEvent))
    (hne : ∀ p ∈ evs, p.2 ≠ ViewEvent.notif Notification.playing_online)
    (hst : ∀ p ∈ evs, p.1.state ≠ ModelState.OFFLINE) :
    ((viewStep m0 vc (ViewEvent.notif Notification.disconnected)).1.1.playing = false) ∧
    ((runView (viewStep m0 vc (ViewEvent.notif Notification.disconnected)).1 evs).1.1.playing
        = false ∧
      ∀ dt,
        ModelCall.updateBall dt ∉ modelCallsOf
          (runView (viewStep m0 vc (ViewEvent.notif Notification.disconnected)).1 evs).2 ∧
        ModelCall.updateBats dt ∉ modelCallsOf
          (runView (viewStep m0 vc (ViewEvent.notif Notification.disconnected)).1 evs).2) ∧
    (∀ m vc2, (viewStep m vc2 (ViewEvent.notif Notification.playing_online)).1.1.playing
        = true) := by
  refine ⟨rfl, ?_, fun m vc2 => rfl⟩
  exact runView_keeps_paused _ evs rfl hne hst

/-- A concrete model snapshot after an opponent disconnect, used as a
witness input. -/
def disconModel : PongerModelView :=
  { offlineModel with state := ModelState.OPPONENT_DISCONNECTED, roomId := "room1" }

/-- Witness for C3: after a disconnect, a concrete run of a frame, a space
keypress and a collision notification keeps the game paused and makes no
simulation call. -/
theorem disconnected_stops_simulation_witness :
    ((∀ p ∈ [(disconModel, ViewEvent.frame 16), (disconModel, ViewEvent.keypress 32),
        (disconModel, ViewEvent.notif Notification.collision)],
        p.2 ≠ ViewEvent.notif Notification.playing_online) ∧
     (∀ p ∈ [(disconModel, ViewEvent.frame 16), (disconModel, ViewEvent.keypress 32),
        (disconModel, ViewEvent.notif Notification.collision)],
        p.1.state ≠ ModelState.OFFLINE)) ∧
    ((viewStep disconModel (sampleView, sampleCanvas)
        (ViewEvent.notif Notification.disconnected)).1.1.playing = false) ∧
    ((runView (viewStep disconModel (sampleView, sampleCanvas)
          (ViewEvent.notif Notification.disconnected)).1
        [(disconModel, ViewEvent.frame 16), (disconModel, ViewEvent.keypress 32),
         (disconModel, ViewEvent.notif Notification.collision)]).1.1.playing = false ∧
      ∀ dt,
        ModelCall.updateBall dt ∉ modelCallsOf
          (runView (viewStep disconModel (sampleView, sampleCanvas)
              (ViewEvent.notif Notification.disconnected)).1
            [(disconModel, ViewEvent.frame 16), (disconModel, ViewEvent.keypress 32),
             (disconModel, ViewEvent.notif Notification.collision)]).2 ∧
        ModelCall.updateBats dt ∉ modelCallsOf
          (runView (viewStep disconModel (sampleView, sampleCanvas)
              (ViewEvent.notif Notification.disconnected)).1
            [(disconModel, ViewEvent.frame 16), (disconModel, ViewEvent.keypress 32),
             (disconModel, ViewEvent.notif Notification.collision)]).2) ∧
    (∀ m vc2, (viewStep m vc2 (ViewEvent.notif Notification.playing_online)).1.1.playing
        = true) :=
  ⟨⟨by decide, by decide⟩,
    disconnected_stops_simulation disconModel (sampleView, sampleCanvas)
      [(disconModel, ViewEvent.frame 16), (disconModel, ViewEvent.keypress 32),
       (disconModel, ViewEvent.notif Notification.collision)]
      (by decide) (by decide)⟩

/-- The model fields the claim lists as the renderer's read set:
`state`, `ball`, `leftBat`, `rightBat`, `points`, `abstractWidth`,
`abstractHeight` (the `states` enum is the static `ModelState` type). -/
def renderFields (m : PongerModelView) :
    ModelState × Ball × Bat × Bat × Option (Nat × Nat) × ℚ × ℚ :=
  (m.state, m.ball, m.leftBat, m.rightBat, m.points, m.abstractWidth, m.abstractHeight)

/-- The rendering and model-call outputs of the view: every effect except
the URL-fragment write (which is neither painting nor a model call). -/
def renderEffects (effs : List Effect) : List Effect :=
  effs.filter fun e => match e with | .setHash _ => false | _ => true

theorem renderEffects_append (a b : List Effect) :
    renderEffects (a ++ b) = renderEffects a ++ renderEffects b := by
  simp [renderEffects, List.filter_append]

/-- One view step over two models agreeing on the listed fields produces the
same view state, the same canvas, and the same rendering/model-call
effects. -/
theorem viewStep_reads_only_renderFields (m1 m2 : PongerModelView)
    (h : renderFields m1 = renderFields m2) (vc : ViewState × Canvas) (e : ViewEvent) :
    (viewStep m1 vc e).1 = (viewStep m2 vc e).1 ∧
    renderEffects (viewStep m1 vc e).2 = renderEffects (viewStep m2 vc e).2 := by
  obtain ⟨s1, b1, l1, r1, p1, aw1, ah1, rid1⟩ := m1
  obtain ⟨s2, b2, l2, r2, p2, aw2, ah2, rid2⟩ := m2
  simp only [renderFields, Prod.mk.injEq] at h
  obtain ⟨h1, h2, h3, h4, h5, h6, h7⟩ := h
  subst h1; subst h2; subst h3; subst h4; subst h5; subst h6; subst h7
  cases e with
  | frame dt => exact ⟨rfl, rfl⟩
  | keydown code => exact ⟨rfl, rfl⟩
  | keyup code => exact ⟨rfl, rfl⟩
  | keypress code => exact ⟨rfl, rfl⟩
  | blur => exact ⟨rfl, rfl⟩
  | notif n => cases n <;> exact ⟨rfl, rfl⟩
  | resize w h => exact ⟨rfl, rfl⟩

/-- C7: two runs of the view over models that agree on `state`, `ball`,
`leftBat`, `rightBat`, `points`, `abstractWidth`, `abstractHeight` (they may
differ elsewhere, e.g. in `roomId`) produce identical view state, identical
canvas, identical drawing, and identical calls into the model, for every
event sequence. -/
theorem render_depends_only_on_listed_fields (m1 m2 : PongerModelView)
    (h : renderFields m1 = renderFields m2) (v : ViewState) (c : Canvas)
    (evs : List ViewEvent) :
    (sysRun ⟨m1, v, c⟩ evs).1.view = (sysRun ⟨m2, v, c⟩ evs).1.view ∧
    (sysRun ⟨m1, v, c⟩ evs).1.canvas = (sysRun ⟨m2, v, c⟩ evs).1.canvas ∧
    renderEffects (sysRun ⟨m1, v, c⟩ evs).2 = renderEffects (sysRun ⟨m2, v, c⟩ evs).2 := by
  induction evs generalizing v c with
  | nil => exact ⟨rfl, rfl, rfl⟩
  | cons e rest ih =>
      have hstep := viewStep_reads_only_renderFields m1 m2 h (v, c) e
      have hv1 : (viewStep m1 (v, c) e).1.1 = (viewStep m2 (v, c) e).1.1 := by
        rw [hstep.1]
      have hv2 : (viewStep m1 (v, c) e).1.2 = (viewStep m2 (v, c) e).1.2 := by
        rw [hstep.1]
      have hsys1 : sysRun ⟨m1, v, c⟩ (e :: rest) =
          ((sysRun ⟨m1, (viewStep m1 (v, c) e).1.1, (viewStep m1 (v, c) e).1.2⟩ rest).1,
            (viewStep m1 (v, c) e).2 ++
              (sysRun ⟨m1, (viewStep m1 (v, c) e).1.1, (viewStep m1 (v, c) e).1.2⟩ rest).2) :=
        rfl
      have hsys2 : sysRun ⟨m2, v, c⟩ (e :: rest) =
          ((sysRun ⟨m2, (viewStep m2 (v, c) e).1.1, (viewStep m2 (v, c) e).1.2⟩ rest).1,
            (viewStep m2 (v, c) e).2 ++
              (sysRun ⟨m2, (viewStep m2 (v, c) e).1.1, (viewStep m2 (v, c) e).1.2⟩ rest).2) :=
        rfl
      have hrest := ih (viewStep m1 (v, c) e).1.1 (viewStep m1 (v, c) e).1.2
      rw [hsys1, hsys2, ← hv1, ← hv2]
      refine ⟨hrest.1, hrest.2.1, ?_⟩
      rw [renderEffects_append, renderEffects_append, hstep.2, hrest.2.2]

/-- A concrete host-side model snapshot, used as a witness input: it agrees
with `hostModelOtherRoom` on every listed field but has a different
`roomId`. -/
def hostModel : PongerModelView :=
  { offlineModel with state := ModelState.WAITING_OPPONENT_TO_CONNECT, roomId := "roomA" }

/-- The same snapshot as `hostModel` with a different room id. -/
def hostModelOtherRoom : PongerModelView := { hostModel with roomId := "roomB" }

/-- Witness for C7: concrete models differing only in `roomId`, run over a
frame, an `open_room` notification and a space keypress, give equal view
states, canvases and rendering/model-call effects. -/
theorem render_depends_only_on_listed_fields_witness :
    renderFields hostModel = renderFields hostModelOtherRoom ∧
    ((sysRun ⟨hostModel, sampleView, sampleCanvas⟩
        [ViewEvent.frame 16, ViewEvent.notif Notification.open_room,
         ViewEvent.keypress 32]).1.view =
      (sysRun ⟨hostModelOtherRoom, sampleView, sampleCanvas⟩
        [ViewEvent.frame 16, ViewEvent.notif Notification.open_room,
         ViewEvent.keypress 32]).1.view ∧
     (sysRun ⟨hostModel, sampleView, sampleCanvas⟩
        [ViewEvent.frame 16, ViewEvent.notif Notification.open_room,
         ViewEvent.keypress 32]).1.canvas =
      (sysRun ⟨hostModelOtherRoom, sampleView, sampleCanvas⟩
        [ViewEvent.frame 16, ViewEvent.notif Notification.open_room,
         ViewEvent.keypress 32]).1.canvas ∧
     renderEffects (sysRun ⟨hostModel, sampleView, sampleCanvas⟩
        [ViewEvent.frame 16, ViewEvent.notif Notification.open_room,
         ViewEvent.keypress 32]).2 =
      renderEffects (sysRun ⟨hostModelOtherRoom, sampleView, sampleCanvas⟩
        [ViewEvent.frame 16, ViewEvent.notif Notification.open_room,
         ViewEvent.keypress 32]).2) :=
  ⟨rfl,
    render_depends_only_on_listed_fields hostModel hostModelOtherRoom rfl
      sampleView sampleCanvas
      [ViewEvent.frame 16, ViewEvent.notif Notification.open_room,
       ViewEvent.keypress 32]⟩

end Ponger
